import Mathlib

/-!
Verification of the TTL-extension core of `soroban-tools`
(`src/cmd/soroban-cli/src/commands/contract/extend.rs`).

The embedding translates the request builder (the `Transaction` literal in
`Cmd::run_against_rpc_server`, lines 118-145), the clamp
(`Cmd::ledgers_to_extend`, lines 93-101) and the result-resolution tail of
`Cmd::run_against_rpc_server` (lines 159-190) into pure Lean functions.

Rust `u32` values are modelled as `Nat` (no arithmetic in the translated code
can overflow a `u32`: the only operations performed on them are `u32::min` and
widening conversions `i64::from`), and `i64` values as `Int`.  Slice indexing
`xs[i]`, which panics in Rust when `i` is out of bounds, is modelled with
`List.get?`, and the resolver's result type records a possible panic
explicitly.
-/

namespace Extend

/-- Opaque stand-in for the XDR `LedgerKey` type: the translated code never
inspects a key, it only moves them around, so any carrier type works. -/
abbrev LedgerKey := Nat

/-- XDR `TtlEntry { key_hash, live_until_ledger_seq }`; `key_hash` is opaque
to the translated code (matched with `..` in Rust). -/
structure TtlEntry where
  key_hash : Nat
  live_until_ledger_seq : Nat
  deriving Repr, DecidableEq

/-- XDR `LedgerEntryData`.  The extend command only distinguishes the `Ttl`
variant from everything else, so the remaining variants (`Account`,
`Trustline`, `Offer`, `ContractData`, `ContractCode`, ...) are collapsed into
a single opaque constructor carrying a tag. -/
inductive LedgerEntryData where
  | ttl (t : TtlEntry)
  | otherData (tag : Nat)
  deriving Repr, DecidableEq

/-- XDR `LedgerEntryExt` (matched with `..` by the code; payload opaque). -/
inductive LedgerEntryExt where
  | v0
  | v1 (v : Nat)
  deriving Repr, DecidableEq

/-- XDR `LedgerEntry { last_modified_ledger_seq, data, ext }`. -/
structure LedgerEntry where
  last_modified_ledger_seq : Nat
  data : LedgerEntryData
  ext : LedgerEntryExt
  deriving Repr, DecidableEq

/-- XDR `LedgerEntryChange`: `Created`, `State`, `Updated` carry a
`LedgerEntry`, `Removed` carries a `LedgerKey`. -/
inductive LedgerEntryChange where
  | created (e : LedgerEntry)
  | state (e : LedgerEntry)
  | updated (e : LedgerEntry)
  | removed (k : LedgerKey)
  deriving Repr, DecidableEq

/-- XDR `OperationMeta { changes: LedgerEntryChanges }`. -/
structure OperationMeta where
  changes : List LedgerEntryChange
  deriving Repr, DecidableEq

/-- XDR `TransactionMetaV3`.  The code destructures only the `operations`
field (`TransactionMetaV3 { operations, .. }`); the unused fields (`ext`,
`tx_changes_before`, `tx_changes_after`, `soroban_meta`) are elided. -/
structure TransactionMetaV3 where
  operations : List OperationMeta
  deriving Repr, DecidableEq

/-- XDR `TransactionMeta`.  Only `V3` is inspected by the code; the payloads
of `V1`/`V2` are opaque to it and collapsed to a tag. -/
inductive TransactionMeta where
  | v0 (ops : List OperationMeta)
  | v1 (v : Nat)
  | v2 (v : Nat)
  | v3 (m : TransactionMetaV3)
  deriving Repr, DecidableEq

/-- One element of `FullLedgerEntries.entries` as returned by
`Client::get_full_ledger_entries`; the resolver reads only
`live_until_ledger_seq` (a `u32`), so `key`/`val`/`last_modified_ledger` are
elided. -/
structure FullLedgerEntry where
  live_until_ledger_seq : Nat
  deriving Repr, DecidableEq

/-- Result of the fallback query `Client::get_full_ledger_entries(&keys)`:
`{ entries: Vec<FullLedgerEntry>, latest_ledger: i64 }`. -/
structure FullLedgerEntries where
  entries : List FullLedgerEntry
  latest_ledger : Int
  deriving Repr, DecidableEq

/-- The error variants of `enum Error` that the translated code can raise
itself (the remaining variants wrap collaborator failures). -/
inductive Error where
  | ledgerEntryNotFound
  | missingOperationResult
  deriving Repr, DecidableEq

/-- Outcome of the resolver: `ok` and `err` are the Rust
`Result<u32, Error>` values; `panicked` records that the Rust code would
abort with an index-out-of-bounds panic instead of returning. -/
inductive ResolveResult where
  | ok (ttl : Nat)
  | err (e : Error)
  | panicked
  deriving Repr, DecidableEq

/-- The `match (&operations[0].changes[0], &operations[0].changes[1])`
expression at extend.rs:177-190.  Rust evaluates both index expressions
before matching, so a list of length `< 2` panics; otherwise the pair is
matched against `(State(_), Updated(LedgerEntry { data: Ttl(TtlEntry {
live_until_ledger_seq, .. }), .. }))`, every other shape yielding
`Err(Error::LedgerEntryNotFound)`. -/
def matchChanges (changes : List LedgerEntryChange) : ResolveResult :=
  match changes.get? 0, changes.get? 1 with
  | some c0, some c1 =>
    match c0, c1 with
    | LedgerEntryChange.state _, LedgerEntryChange.updated e =>
      match e.data with
      | LedgerEntryData.ttl t => ResolveResult.ok t.live_until_ledger_seq
      | _ => ResolveResult.err Error.ledgerEntryNotFound
    | _, _ => ResolveResult.err Error.ledgerEntryNotFound
  | _, _ => ResolveResult.panicked

/-- The result-resolution tail of `Cmd::run_against_rpc_server`
(extend.rs:159-190), as a function of the transaction metadata, the clamped
`extend_to` and the snapshot the fallback query `get_full_ledger_entries`
would return (the query itself is an external collaborator; a successful
reply is passed in as `snapshot`).  The second component of the result
records whether the fallback query was issued.

Line-by-line: non-`V3` metadata fails with `LedgerEntryNotFound` (159-161);
an empty operation list fails likewise (165-167); if `operations[0].changes`
is empty the fallback runs, reads `entry.entries[0]` (panicking when empty)
and returns its `live_until_ledger_seq` when
`latest_ledger + i64::from(extend_to) < i64::from(extension)` (169-175);
otherwise control reaches the changes match (177-190). -/
def resolve (meta : TransactionMeta) (extendTo : Nat)
    (snapshot : FullLedgerEntries) : ResolveResult × Bool :=
  match meta with
  | TransactionMeta.v3 m =>
    match m.operations with
    | [] => (ResolveResult.err Error.ledgerEntryNotFound, false)
    | op :: _ =>
      if op.changes.isEmpty then
        match snapshot.entries with
        | [] => (ResolveResult.panicked, true)
        | en :: _ =>
          if snapshot.latest_ledger + (extendTo : Int)
              < (en.live_until_ledger_seq : Int) then
            (ResolveResult.ok en.live_until_ledger_seq, true)
          else
            (matchChanges op.changes, true)
      else
        (matchChanges op.changes, false)
  | _ => (ResolveResult.err Error.ledgerEntryNotFound, false)

/-- `const MAX_LEDGERS_TO_EXTEND: u32 = 535_679` (extend.rs:18). -/
def MAX_LEDGERS_TO_EXTEND : Nat := 535679

/-- `Cmd::ledgers_to_extend` (extend.rs:93-101): clamp the requested number
of ledgers with `u32::min` and, when the clamp bites (`res <
self.ledgers_to_extend`), emit a warning.  The second component records
whether the `tracing::warn!` line fires. -/
def ledgers_to_extend (requested : Nat) : Nat × Bool :=
  let res := Nat.min requested MAX_LEDGERS_TO_EXTEND
  (res, decide (res < requested))

/-- XDR `ExtensionPoint` (only `V0` exists). -/
inductive ExtensionPoint where
  | v0
  deriving Repr, DecidableEq

/-- XDR `Preconditions`; the builder uses `Preconditions::None`, the other
variants are collapsed to a tag. -/
inductive Preconditions where
  | noPrecond
  | otherPrecond (tag : Nat)
  deriving Repr, DecidableEq

/-- XDR `Memo`; the builder uses `Memo::None`, the other variants are
collapsed to a tag. -/
inductive Memo where
  | noMemo
  | otherMemo (tag : Nat)
  deriving Repr, DecidableEq

/-- XDR `MuxedAccount::Ed25519(Uint256)`; the key bytes are opaque. -/
inductive MuxedAccount where
  | ed25519 (k : Nat)
  | muxedEd25519 (v : Nat)
  deriving Repr, DecidableEq

/-- XDR `ExtendFootprintTtlOp { ext, extend_to }`. -/
structure ExtendFootprintTtlOp where
  ext : ExtensionPoint
  extend_to : Nat
  deriving Repr, DecidableEq

/-- XDR `OperationBody`; only `ExtendFootprintTtl` is built here, the other
operation kinds are collapsed to a tag. -/
inductive OperationBody where
  | extendFootprintTtl (op : ExtendFootprintTtlOp)
  | otherBody (tag : Nat)
  deriving Repr, DecidableEq

/-- XDR `Operation { source_account, body }`. -/
structure Operation where
  source_account : Option MuxedAccount
  body : OperationBody
  deriving Repr, DecidableEq

/-- XDR `LedgerFootprint { read_only, read_write }`. -/
structure LedgerFootprint where
  read_only : List LedgerKey
  read_write : List LedgerKey
  deriving Repr, DecidableEq

/-- XDR `SorobanResources`. -/
structure SorobanResources where
  footprint : LedgerFootprint
  instructions : Nat
  read_bytes : Nat
  write_bytes : Nat
  deriving Repr, DecidableEq

/-- XDR `SorobanTransactionData { ext, resources, resource_fee }`. -/
structure SorobanTransactionData where
  ext : ExtensionPoint
  resources : SorobanResources
  resource_fee : Int
  deriving Repr, DecidableEq

/-- XDR `TransactionExt`. -/
inductive TransactionExt where
  | v0
  | v1 (d : SorobanTransactionData)
  deriving Repr, DecidableEq

/-- XDR `Transaction` (the fields the builder sets). -/
structure Transaction where
  source_account : MuxedAccount
  fee : Nat
  seq_num : Int
  cond : Preconditions
  memo : Memo
  operations : List Operation
  ext : TransactionExt
  deriving Repr, DecidableEq

/-- The `Transaction` literal built by `Cmd::run_against_rpc_server`
(extend.rs:118-145): `sequence` is the account's sequence number fetched via
`get_account` (so `seq_num = sequence + 1`), `extendTo` is the already
clamped value of `ledgers_to_extend`, `keys` the parsed ledger keys. -/
def buildTx (sourceKey : Nat) (fee : Nat) (sequence : Int) (extendTo : Nat)
    (keys : List LedgerKey) : Transaction :=
  { source_account := MuxedAccount.ed25519 sourceKey
    fee := fee
    seq_num := sequence + 1
    cond := Preconditions.noPrecond
    memo := Memo.noMemo
    operations := [{ source_account := none
                     body := OperationBody.extendFootprintTtl
                       { ext := ExtensionPoint.v0, extend_to := extendTo } }]
    ext := TransactionExt.v1
      { ext := ExtensionPoint.v0
        resources := { footprint := { read_only := keys, read_write := [] }
                       instructions := 0
                       read_bytes := 0
                       write_bytes := 0 }
        resource_fee := 0 } }

/-- C3: for every execution outcome whose detailed (v3) metadata has a first
operation with `changes = [State(_), Updated(Ttl { live_until_ledger_seq: X })]`,
the resolver returns `X` and performs no fallback ledger-entry query (the
query flag is `false` and the result is independent of the snapshot). -/
theorem c3_two_element_shape_returns_new_ttl
    (s : LedgerEntry) (lm : Nat) (ex : LedgerEntryExt) (t : TtlEntry)
    (rest : List OperationMeta) (extendTo : Nat) (snap : FullLedgerEntries) :
    resolve
        (TransactionMeta.v3
          ⟨{ changes := [LedgerEntryChange.state s,
                LedgerEntryChange.updated
                  { last_modified_ledger_seq := lm
                    data := LedgerEntryData.ttl t
                    ext := ex }] } :: rest⟩)
        extendTo snap
      = (ResolveResult.ok t.live_until_ledger_seq, false) := rfl

/-- C4: for every outcome whose first operation has an empty changes list,
when the fallback snapshot has a first entry and satisfies
`latest_ledger + extend_to < live_until_ledger_seq`, the resolver returns
that entry's `live_until_ledger_seq` unchanged (and the fallback query was
issued). -/
theorem c4_fallback_returns_existing_ttl
    (rest : List OperationMeta) (extendTo : Nat) (snap : FullLedgerEntries)
    (en : FullLedgerEntry) (ens : List FullLedgerEntry)
    (hentries : snap.entries = en :: ens)
    (hlt : snap.latest_ledger + (extendTo : Int)
            < (en.live_until_ledger_seq : Int)) :
    resolve (TransactionMeta.v3 ⟨{ changes := [] } :: rest⟩) extendTo snap
      = (ResolveResult.ok en.live_until_ledger_seq, true) := by
  cases snap with
  | mk entries latest =>
    simp only at hentries
    subst hentries
    simp only [resolve, List.isEmpty, if_true]
    rw [if_pos hlt]

/-- Witness for C4 at the spec's scenario: `extend_to = 100`, empty changes,
fallback snapshot `latest_ledger = 4000`, `live_until_ledger_seq = 6000`;
`4000 + 100 < 6000`, so the resolver returns `6000`. -/
theorem c4_witness :
    resolve (TransactionMeta.v3 ⟨[{ changes := [] }]⟩) 100
        { entries := [{ live_until_ledger_seq := 6000 }]
          latest_ledger := 4000 }
      = (ResolveResult.ok 6000, true) :=
  c4_fallback_returns_existing_ttl [] 100 _
    { live_until_ledger_seq := 6000 } [] rfl (by decide)

/-- C6: for every outcome whose metadata is not the detailed v3 shape, and
for every v3 outcome with an empty operation list, the resolver fails with
`LedgerEntryNotFound` without issuing the fallback query. -/
theorem c6_unrecognized_meta_or_empty_ops_fails
    (meta : TransactionMeta) (extendTo : Nat) (snap : FullLedgerEntries)
    (h : (∀ m, meta ≠ TransactionMeta.v3 m)
        ∨ ∃ m, meta = TransactionMeta.v3 m ∧ m.operations = []) :
    resolve meta extendTo snap
      = (ResolveResult.err Error.ledgerEntryNotFound, false) := by
  rcases h with h | ⟨m, hm, hops⟩
  · cases meta with
    | v0 ops => rfl
    | v1 v => rfl
    | v2 v => rfl
    | v3 m => exact absurd rfl (h m)
  · subst hm
    cases m with
    | mk ops =>
      simp only at hops
      subst hops
      rfl

/-- Witness for C6: a non-v3 metadata value (here `V0`) makes the resolver
fail with `LedgerEntryNotFound` and the fallback-query flag stays `false`. -/
theorem c6_witness :
    resolve (TransactionMeta.v0 []) 5 { entries := [], latest_ledger := 0 }
      = (ResolveResult.err Error.ledgerEntryNotFound, false) :=
  c6_unrecognized_meta_or_empty_ops_fails _ _ _
    (Or.inl fun m h => TransactionMeta.noConfusion h)

/-- C5: the clamped value equals `min(requested, MAX_LEDGERS_TO_EXTEND)`,
the warning fires exactly when the request exceeds the maximum (so: above
the maximum the value is the maximum and a warning is emitted; at or below,
the value is the request itself and no warning), and the built transaction
carries that clamped value in its single `ExtendFootprintTtl` operation. -/
theorem c5_clamp_and_warning
    (requested : Nat) (keys : List LedgerKey) (src fee : Nat)
    (sequence : Int) :
    (ledgers_to_extend requested).1 = min requested MAX_LEDGERS_TO_EXTEND
    ∧ ((ledgers_to_extend requested).2 = true
        ↔ MAX_LEDGERS_TO_EXTEND < requested)
    ∧ (buildTx src fee sequence (ledgers_to_extend requested).1 keys).operations
        = [{ source_account := none
             body := OperationBody.extendFootprintTtl
               { ext := ExtensionPoint.v0
                 extend_to := min requested MAX_LEDGERS_TO_EXTEND } }] := by
  refine ⟨rfl, ?_, rfl⟩
  simp only [ledgers_to_extend, decide_eq_true_eq, Nat.min_def,
    MAX_LEDGERS_TO_EXTEND]
  split <;> omega

/-- C7: for every key list, clamped extension length, account sequence and
fee, the built transaction has exactly one operation, of kind
`ExtendFootprintTtl` carrying the clamped `extend_to`; its sequence number is
the account's plus one; its footprint's read-only set is the key list and its
read-write set is empty; instructions, read bytes, write bytes and resource
fee are all zero. -/
theorem c7_built_transaction_shape
    (keys : List LedgerKey) (extendTo src fee : Nat) (sequence : Int) :
    (buildTx src fee sequence extendTo keys).operations
        = [{ source_account := none
             body := OperationBody.extendFootprintTtl
               { ext := ExtensionPoint.v0, extend_to := extendTo } }]
    ∧ (buildTx src fee sequence extendTo keys).seq_num = sequence + 1
    ∧ (buildTx src fee sequence extendTo keys).ext
        = TransactionExt.v1
          { ext := ExtensionPoint.v0
            resources := { footprint := { read_only := keys, read_write := [] }
                           instructions := 0
                           read_bytes := 0
                           write_bytes := 0 }
            resource_fee := 0 } :=
  ⟨rfl, rfl, rfl⟩

/-- C8: the resolver is deterministic — two runs on the same execution
outcome, clamped extension and fallback snapshot produce the same result
(same resolved ledger number or same error kind). -/
theorem c8_resolver_deterministic
    (meta : TransactionMeta) (extendTo : Nat) (snap : FullLedgerEntries)
    (r1 r2 : ResolveResult × Bool)
    (h1 : r1 = resolve meta extendTo snap)
    (h2 : r2 = resolve meta extendTo snap) :
    r1 = r2 := h1.trans h2.symm

/-- Witness for C8 at a concrete outcome: both runs on a `V0` metadata value
yield the `LedgerEntryNotFound` failure. -/
theorem c8_witness :
    ((ResolveResult.err Error.ledgerEntryNotFound, false) : ResolveResult × Bool)
      = (ResolveResult.err Error.ledgerEntryNotFound, false) :=
  c8_resolver_deterministic (TransactionMeta.v0 []) 0
    { entries := [], latest_ledger := 0 } _ _ rfl rfl

/-- C9: when the first operation's changes list is empty, the fallback reads
`entry.entries[0]` without a bounds check, so an empty snapshot entry list
makes the code panic (index out of bounds) instead of returning an error. -/
theorem c9_empty_snapshot_entries_panics
    (rest : List OperationMeta) (extendTo : Nat) (latest : Int) :
    resolve (TransactionMeta.v3 ⟨{ changes := [] } :: rest⟩) extendTo
        { entries := [], latest_ledger := latest }
      = (ResolveResult.panicked, true) := rfl

/-- C10: the resolver inspects only indices 0 and 1 of the changes list: a
list of length three or more whose first element is `State(_)` and whose
second is `Updated(Ttl { live_until_ledger_seq: X })` resolves to `X`
regardless of the trailing elements, with no fallback query. -/
theorem c10_trailing_changes_ignored
    (s : LedgerEntry) (lm : Nat) (ex : LedgerEntryExt) (t : TtlEntry)
    (tl : List LedgerEntryChange) (htl : tl ≠ [])
    (rest : List OperationMeta) (extendTo : Nat) (snap : FullLedgerEntries) :
    resolve
        (TransactionMeta.v3
          ⟨{ changes := LedgerEntryChange.state s ::
                LedgerEntryChange.updated
                  { last_modified_ledger_seq := lm
                    data := LedgerEntryData.ttl t
                    ext := ex } :: tl } :: rest⟩)
        extendTo snap
      = (ResolveResult.ok t.live_until_ledger_seq, false) := rfl

/-- Witness for C10: a three-element changes list (trailing `Removed` entry)
still resolves to the updated TTL. -/
theorem c10_witness :
    resolve
        (TransactionMeta.v3
          ⟨[{ changes := [LedgerEntryChange.state
                { last_modified_ledger_seq := 0
                  data := LedgerEntryData.otherData 0
                  ext := LedgerEntryExt.v0 },
                LedgerEntryChange.updated
                  { last_modified_ledger_seq := 7
                    data := LedgerEntryData.ttl
                      { key_hash := 1, live_until_ledger_seq := 6000 }
                    ext := LedgerEntryExt.v0 },
                LedgerEntryChange.removed 3] }]⟩)
        100 { entries := [], latest_ledger := 0 }
      = (ResolveResult.ok 6000, false) :=
  c10_trailing_changes_ignored
    { last_modified_ledger_seq := 0
      data := LedgerEntryData.otherData 0
      ext := LedgerEntryExt.v0 }
    7 LedgerEntryExt.v0 { key_hash := 1, live_until_ledger_seq := 6000 }
    [LedgerEntryChange.removed 3] (List.cons_ne_nil _ _) [] 100 _

/-- C1 evaluated at its failing input: empty changes with a fallback snapshot
where `latest_ledger + extend_to ≥ live_until_ledger_seq` (here
`5950 + 100 ≥ 6000`) makes control fall through to `changes[0]` on the empty
list, so the code panics instead of returning `LedgerEntryNotFound`. -/
theorem c1_fallthrough_panics :
    resolve (TransactionMeta.v3 ⟨[{ changes := [] }]⟩) 100
        { entries := [{ live_until_ledger_seq := 6000 }]
          latest_ledger := 5950 }
      = (ResolveResult.panicked, true) := by decide

/-- C2 evaluated at its failing input: a single-element changes list
(`[State(_)]`) makes the code evaluate `changes[1]` out of bounds, so it
panics instead of returning `LedgerEntryNotFound`; no fallback query is
issued. -/
theorem c2_single_element_changes_panics :
    resolve
        (TransactionMeta.v3
          ⟨[{ changes := [LedgerEntryChange.state
                { last_modified_ledger_seq := 0
                  data := LedgerEntryData.otherData 0
                  ext := LedgerEntryExt.v0 }] }]⟩)
        100 { entries := [], latest_ledger := 0 }
      = (ResolveResult.panicked, false) := by decide

end Extend
